import Mathlib

/-!
Verification of the music-analyser frontend client (React/TypeScript)
against its design specification.

The development shallowly embeds the client-side logic that the spec
talks about: the upload page duration gate (src/pages/Index.tsx), the
fetch wrapper and its backend error normalization (services/api.ts),
session rehydration (contexts/AuthContext.tsx), the record page
submission handler, the file-intake component (components/FileUpload.tsx),
the waveform region seeding (components/WaveformPlayer.tsx) and the
audio recorder (components/AudioRecorder.tsx).

Times and durations are modelled as rationals; the numeric literals in
the source (0.1, 60, 50 * 1024 * 1024) are exactly representable, so no
floating-point rounding is lost on the values the claims quantify over.
-/

set_option linter.unusedVariables false

/-! Generic string and JS-value helpers -/

/-- Substring occurrence, stated as an explicit decomposition. -/
def strContains (s pat : String) : Prop :=
  ∃ pre post, s = pre ++ pat ++ post

/-- Tenths rounding used by toFixed1: for q = a/b this is
    floor(10q + 1/2) = fdiv (20a + b) (2b), which agrees with the
    rounding of toFixed(1) on the nonnegative durations the source
    formats. -/
def roundTenths (q : ℚ) : Int :=
  Int.fdiv (20 * q.num + q.den) (2 * q.den)

/-- Rendering of a rational with exactly one decimal digit, as produced
    by toFixed(1) in the source. -/
def toFixed1 (q : ℚ) : String :=
  let n : Int := roundTenths q
  let m : Nat := n.natAbs
  (if n < 0 then "-" else "") ++ toString (m / 10) ++ "." ++ toString (m % 10)

/-- JS template-literal rendering of the duration numbers interpolated in
    source messages; the source only interpolates the integer-valued
    targets 15, 30 and 60 there. -/
def qToString (q : ℚ) : String :=
  if q.den = 1 then toString q.num
  else toString q.num ++ "/" ++ toString q.den

/-- A DOM File as the client sees it: only the declared metadata is ever
    read by this repository (name, MIME type string, byte size). -/
structure JsFile where
  name : String
  type : String
  size : Nat
deriving Repr, DecidableEq

/-- Network calls issued through the api service (services/api.ts). -/
inductive NetCall where
  | uploadAndProcess (file : JsFile) (startTime endTime : ℚ)
  | uploadRecording (file : JsFile) (segmentId : Int)
  | analyzeRecording (segmentId : String) (recordingId : String)
deriving Repr, DecidableEq

/-! Model of the home page (src/pages/Index.tsx) -/

/-- Segment info persisted under the currentSegment local-storage key. -/
structure SegmentInfo where
  segmentId : Int
  fileName : String
  startTime : ℚ
  endTime : ℚ
deriving Repr, DecidableEq

/-- The component state of Index that handleUpload reads and writes. -/
structure IndexState where
  selectedFile : Option JsFile
  audioUrl : String
  selectedDuration : Option ℚ
  startTime : ℚ
  endTime : ℚ
  isUploading : Bool
deriving Repr, DecidableEq

/-- Response of POST /api/upload-and-process on success. -/
structure UploadResult where
  id : Int
deriving Repr, DecidableEq

/-- Observable effect of one invocation of Index.handleUpload. -/
structure IndexEffect where
  state : IndexState
  calls : List NetCall
  errorToasts : List String
  successToasts : List String
  storageSet : List (String × SegmentInfo)
  storageRemoved : List String
  navTarget : Option String
  revokedUrls : List String
deriving Repr, DecidableEq

/-- Effect of a handler invocation that does nothing but return. -/
def IndexEffect.noop (st : IndexState) : IndexEffect :=
  { state := st, calls := [], errorToasts := [], successToasts := [],
    storageSet := [], storageRemoved := [], navTarget := none,
    revokedUrls := [] }

/-- The blocking message of the duration gate, verbatim from the source. -/
def durationBlockMsg (target actualDuration : ℚ) : String :=
  "Please ensure the segment is exactly " ++ qToString target ++
    " seconds (current: " ++ toFixed1 actualDuration ++ "s" ++ ")"

/-- Embedding of Index.handleUpload. The backend argument is the outcome
    of the awaited uploadAPI.uploadAndProcess call when it is made
    (Except.error is a rejected promise caught by the catch block). -/
def handleUpload (st : IndexState) (backend : Except String UploadResult) :
    IndexEffect :=
  match st.selectedFile, st.selectedDuration with
  | some file, some target =>
    if target = 0 then IndexEffect.noop st
    else
      let actualDuration : ℚ := |st.endTime - st.startTime|
      let tolerance : ℚ := 1/10
      if |actualDuration - target| ≤ tolerance then
        match backend with
        | Except.ok result =>
          { state := { st with isUploading := false },
            calls := [NetCall.uploadAndProcess file st.startTime st.endTime],
            errorToasts := [],
            successToasts := ["Song uploaded and processed!"],
            storageSet := [("currentSegment",
              { segmentId := result.id, fileName := file.name,
                startTime := st.startTime, endTime := st.endTime })],
            storageRemoved := [],
            navTarget := some "/record",
            revokedUrls := [st.audioUrl] }
        | Except.error _ =>
          { state := { st with isUploading := false },
            calls := [NetCall.uploadAndProcess file st.startTime st.endTime],
            errorToasts := ["Upload failed. Please try again."],
            successToasts := [], storageSet := [], storageRemoved := [],
            navTarget := none, revokedUrls := [] }
      else
        { state := st, calls := [],
          errorToasts := [durationBlockMsg target actualDuration],
          successToasts := [], storageSet := [], storageRemoved := [],
          navTarget := none, revokedUrls := [] }
  | _, _ => IndexEffect.noop st

/-- Fixed sample audio file used by concrete witnesses. -/
def sampleSong : JsFile := { name := "song.mp3", type := "audio/mpeg", size := 1000 }

/-- Index state of end-to-end scenario B: target 30, region 10..38. -/
def indexStateB : IndexState :=
  { selectedFile := some sampleSong, audioUrl := "blob:song",
    selectedDuration := some 30, startTime := 10, endTime := 38,
    isUploading := false }

/-- Index state of end-to-end scenario A: target 30, region 10..40. -/
def indexStateA : IndexState :=
  { selectedFile := some sampleSong, audioUrl := "blob:song",
    selectedDuration := some 30, startTime := 10, endTime := 40,
    isUploading := false }

/-! Model of JSON values and the fetch wrapper (services/api.ts) -/

/-- JSON values as delivered by response.json(). Numbers are restricted
    to the integers that actually occur in the error payloads modelled
    here. -/
inductive Json where
  | null
  | bool (b : Bool)
  | num (n : Int)
  | str (s : String)
  | arr (elems : List Json)
  | obj (fields : List (String × Json))

/-- Named-property access: some v when the value is an object carrying
    the field, none otherwise (undefined in JS terms). -/
def Json.getField : Json → String → Option Json
  | Json.obj fields, k => List.lookup k fields
  | _, _ => none

/-- JS truthiness of a JSON value. -/
def Json.truthy : Json → Bool
  | Json.null => false
  | Json.bool b => b
  | Json.num n => n != 0
  | Json.str s => s != ""
  | Json.arr _ => true
  | Json.obj _ => true

/-- JS string coercion as applied by template literals and the Error
    constructor: arrays join their coerced elements with commas, plain
    objects coerce to the object placeholder. -/
def Json.coerce : Json → String
  | Json.null => "null"
  | Json.bool b => if b then "true" else "false"
  | Json.num n => toString n
  | Json.str s => s
  | Json.arr elems =>
    String.intercalate "," (elems.attach.map fun e => Json.coerce e.1)
  | Json.obj _ => "[object Object]"
termination_by j => sizeOf j
decreasing_by
  have h := List.sizeOf_lt_of_mem e.2
  simp only [Json.arr.sizeOf_spec]
  omega

/-- Embedding of the non-ok branch of apiRequest. The body argument is
    the outcome of response.json().catch(() => null): none when the body
    was absent or unparseable. The result some msg is the message of the
    thrown normalized Error; none models a TypeError escaping from the
    normalization itself (slice called on a loc value that has no slice
    method, or property access on a null first element). -/
def normalizeApiError (body : Option Json) (status : Nat)
    (statusText : String) : Option String :=
  let fallback := "API request failed: " ++ toString status ++ " " ++ statusText
  match body with
  | none => some fallback
  | some errorData =>
    if errorData.truthy then
      match errorData.getField "detail" with
      | some (Json.str s) => some s
      | some (Json.arr (firstError :: _)) =>
        (match firstError with
        | Json.null => none
        | _ =>
          let fieldStr : Option String :=
            match firstError.getField "loc" with
            | none => some "field"
            | some Json.null => some "field"
            | some (Json.arr locs) =>
              match locs.getLast? with
              | some v => if v.truthy then some v.coerce else some "field"
              | none => some "field"
            | some (Json.str s) =>
              match s.toList.getLast? with
              | some c => some (String.singleton c)
              | none => some "field"
            | some _ => none
          let msgStr : String :=
            match firstError.getField "msg" with
            | some v => if v.truthy then v.coerce else "Validation error"
            | none => "Validation error"
          match fieldStr with
          | none => none
          | some f => some (f ++ ": " ++ msgStr))
      | _ =>
        match errorData.getField "error" with
        | some v =>
          if v.truthy then some v.coerce
          else
            match errorData.getField "message" with
            | some w => if w.truthy then some w.coerce else some fallback
            | none => some fallback
        | none =>
          match errorData.getField "message" with
          | some w => if w.truthy then some w.coerce else some fallback
          | none => some fallback
    else some fallback

/-! Model of the Authorization header attached by apiRequest -/

/-- A JS string-keyed object viewed as a finite lookup map. -/
def HeaderMap : Type := String → Option String

/-- JS object spread: fields of the override object win over the base. -/
def jsSpread (base overrides : HeaderMap) : HeaderMap :=
  fun k => match overrides k with
  | some v => some v
  | none => base k

/-- Value of the Authorization template literal: a missing token is the
    JS null, which interpolates as the string null. -/
def authHeaderValue (storedToken : Option String) : String :=
  "Bearer " ++ (match storedToken with | some t => t | none => "null")

/-- Headers sent by apiRequest: the Authorization entry built from the
    stored token, with the caller-supplied options.headers spread over
    it. -/
def apiRequestHeaders (storedToken : Option String)
    (optionHeaders : HeaderMap) : HeaderMap :=
  jsSpread (fun k => if k = "Authorization"
      then some (authHeaderValue storedToken) else none)
    optionHeaders

/-! Model of session rehydration (contexts/AuthContext.tsx) -/

/-- The user profile stored by the auth provider. -/
structure User where
  id : String
  email : String
  username : String
deriving Repr, DecidableEq

/-- Local storage as an association list of key-value string pairs. -/
def Storage : Type := List (String × String)

/-- localStorage.getItem. -/
def Storage.get (s : Storage) (k : String) : Option String :=
  List.lookup k s

/-- localStorage.removeItem. -/
def Storage.removeItem (s : Storage) (k : String) : Storage :=
  List.filter (fun p => p.1 != k) s

/-- The in-memory auth context state. -/
structure AuthState where
  user : Option User
  token : Option String
  isLoading : Bool
deriving Repr, DecidableEq

/-- Embedding of the mount effect of AuthProvider. The parse argument is
    JSON.parse specialized to the stored user entry, none modelling a
    parse throw caught by the catch block. Returns the final state, the
    updated storage, and the network calls made by the effect (the
    source effect body contains none). The && guard in the source makes
    an empty stored string falsy, hence the explicit empty-string
    branch. -/
def rehydrateSession (parse : String → Option User) (store : Storage) :
    AuthState × Storage × List NetCall :=
  let storedToken := Storage.get store "token"
  let storedUser := Storage.get store "user"
  match storedToken, storedUser with
  | some t, some u =>
    if t = "" ∨ u = "" then
      ({ user := none, token := none, isLoading := false }, store, [])
    else
      match parse u with
      | some parsedUser =>
        ({ user := some parsedUser, token := some t, isLoading := false },
         store, [])
      | none =>
        ({ user := none, token := none, isLoading := false },
         Storage.removeItem (Storage.removeItem store "user") "token", [])
  | _, _ => ({ user := none, token := none, isLoading := false }, store, [])

/-- Fixed sample user for concrete witnesses. -/
def sampleUser : User := { id := "1", email := "a@b.c", username := "al" }

/-- Storage holding a persisted session. -/
def sessionStore : Storage :=
  [("token", "tok123"), ("user", "userjson")]

/-! Model of the record page (the Record component bundled with
    contexts/AuthContext.tsx; src/pages/Record.tsx is the record-only
    variant whose unauthenticated guard is identical) -/

/-- A recorded-data chunk with its byte size. -/
structure Chunk where
  id : Nat
  size : Nat
deriving Repr, DecidableEq

/-- A binary blob as assembled by the Blob constructor. -/
structure Blob where
  parts : List Chunk
  type : String
deriving Repr, DecidableEq

/-- Capture mode of the record page. -/
inductive RecordMode where
  | record
  | upload
deriving Repr, DecidableEq

/-- The component state of Record that the handlers read and write. -/
structure RecordState where
  mode : RecordMode
  recordedBlob : Option Blob
  uploadedFile : Option JsFile
  audioUrl : Option String
  selectedDuration : ℚ
  segmentStart : ℚ
  segmentEnd : ℚ
  isAnalyzing : Bool
  showLoginDialog : Bool
deriving Repr, DecidableEq

/-- The segment identity derived from location state or the
    local-storage mirror (segmentId as it is before toString). -/
structure SegmentContext where
  segmentId : String
  fileName : String
  startTime : ℚ
  endTime : ℚ
deriving Repr, DecidableEq

/-- The whole record page: segment context, component state and the
    persistent storage beneath it. -/
structure RecordPage where
  seg : SegmentContext
  state : RecordState
  storage : Storage

/-- Embedding of the onClick handlers of the two mode-toggle buttons:
    each invokes only setMode with its fixed mode. -/
def modeToggleClick (p : RecordPage) (m : RecordMode) : RecordPage :=
  { p with state := { p.state with mode := m } }

/-- parseInt in base 10 as applied to segmentId.toString(): optional
    sign followed by leading decimal digits; none models NaN. -/
def jsParseInt (s : String) : Option Int :=
  let signAndRest : Int × List Char :=
    match s.toList with
    | '-' :: cs => (-1, cs)
    | '+' :: cs => (1, cs)
    | cs => (1, cs)
  let digits := signAndRest.2.takeWhile Char.isDigit
  if digits.isEmpty then none
  else some (signAndRest.1 *
    Int.ofNat (digits.foldl (fun a c => a * 10 + (c.toNat - '0'.toNat)) 0))

/-- Observable effect of one invocation of Record.handleSubmitAnalysis. -/
structure RecordEffect where
  state : RecordState
  calls : List NetCall
  errorToasts : List String
  successToasts : List String
  storageRemoved : List String
  navTarget : Option String
deriving Repr, DecidableEq

/-- Effect of a submission-handler invocation that only flips the login
    dialog or toasts and returns. -/
def RecordEffect.bare (st : RecordState) (errs : List String) :
    RecordEffect :=
  { state := st, calls := [], errorToasts := errs, successToasts := [],
    storageRemoved := [], navTarget := none }

/-- Shared tail of the submission handler after the guards: parse the
    segment id (a NaN throws into the catch block), upload the
    recording, analyze it, then clear the local-storage mirror and
    navigate; any rejected await lands in the catch block and the
    finally block always clears the busy flag. -/
def recordSubmitRest (seg : SegmentContext) (st : RecordState)
    (audioFile : JsFile) (uploadResp analyzeResp : Except String Int) :
    RecordEffect :=
  match jsParseInt seg.segmentId with
  | none =>
    { state := { st with isAnalyzing := false }, calls := [],
      errorToasts := ["Failed to analyze recording"], successToasts := [],
      storageRemoved := [], navTarget := none }
  | some segmentIdNum =>
    match uploadResp with
    | Except.error _ =>
      { state := { st with isAnalyzing := false },
        calls := [NetCall.uploadRecording audioFile segmentIdNum],
        errorToasts := ["Failed to analyze recording"], successToasts := [],
        storageRemoved := [], navTarget := none }
    | Except.ok recordingId =>
      match analyzeResp with
      | Except.error _ =>
        { state := { st with isAnalyzing := false },
          calls := [NetCall.uploadRecording audioFile segmentIdNum,
            NetCall.analyzeRecording (toString segmentIdNum)
              (toString recordingId)],
          errorToasts := ["Failed to analyze recording"],
          successToasts := [], storageRemoved := [], navTarget := none }
      | Except.ok analysisId =>
        { state := { st with isAnalyzing := false },
          calls := [NetCall.uploadRecording audioFile segmentIdNum,
            NetCall.analyzeRecording (toString segmentIdNum)
              (toString recordingId)],
          errorToasts := [], successToasts := ["Analysis complete!"],
          storageRemoved := ["currentSegment"],
          navTarget := some ("/results/" ++ toString analysisId) }

/-- Embedding of Record.handleSubmitAnalysis. The uploadResp and
    analyzeResp arguments are the outcomes of the two awaited calls when
    they are reached (Except.error is a rejected promise caught by the
    catch block); responses carry the created recording and analysis
    ids. The source passes extra timing arguments to
    recordingAPI.uploadRecording, whose signature ignores them, so the
    issued call carries only the file and segment id. -/
def handleSubmitAnalysis (user : Option User) (seg : SegmentContext)
    (st : RecordState) (uploadResp : Except String Int)
    (analyzeResp : Except String Int) : RecordEffect :=
  match user with
  | none =>
    RecordEffect.bare { st with showLoginDialog := true } []
  | some _ =>
    match st.mode, st.recordedBlob, st.uploadedFile with
    | RecordMode.record, none, _ =>
      RecordEffect.bare st ["Please record your singing first"]
    | RecordMode.upload, _, none =>
      RecordEffect.bare st ["Please upload an audio file first"]
    | RecordMode.record, some blob, _ =>
      let audioFile : JsFile :=
        { name := "recording.webm", type := "audio/webm",
          size := (blob.parts.map Chunk.size).sum }
      recordSubmitRest seg st audioFile uploadResp analyzeResp
    | RecordMode.upload, _, some file =>
      let audioFile : JsFile :=
        { name := file.name, type := file.type, size := file.size }
      recordSubmitRest seg st audioFile uploadResp analyzeResp

/-- Blob used by concrete record page scenarios. -/
def sampleBlob : Blob :=
  { parts := [{ id := 0, size := 5 }], type := "audio/webm" }

/-- Segment context of the concrete record page scenario. -/
def segCtx0 : SegmentContext :=
  { segmentId := "7", fileName := "song.mp3", startTime := 10,
    endTime := 40 }

/-- Record page state holding a finished take in record mode. -/
def recordState0 : RecordState :=
  { mode := RecordMode.record, recordedBlob := some sampleBlob,
    uploadedFile := none, audioUrl := none, selectedDuration := 30,
    segmentStart := 0, segmentEnd := 30, isAnalyzing := false,
    showLoginDialog := false }

/-- A record page holding a finished take and a persisted segment. -/
def recordPage0 : RecordPage :=
  { seg := segCtx0, state := recordState0,
    storage := [("currentSegment", "segjson")] }

/-! Model of the waveform region selector (components/WaveformPlayer.tsx) -/

/-- JS truthiness of the optional fixedDuration prop: undefined and 0
    are falsy. -/
def qOptTruthy : Option ℚ → Bool
  | none => false
  | some q => q != 0

/-- The region object created by regions.addRegion. The finish field
    embeds the end option of the source (end is reserved in Lean). -/
structure Region where
  start : ℚ
  finish : ℚ
  drag : Bool
  resize : Bool
deriving Repr, DecidableEq

/-- Embedding of the ready handler of WaveformPlayer when region
    selection is enabled: computes the default interval, creates the
    region (resize disabled exactly when fixedDuration is truthy) and
    immediately reports the interval through onRegionUpdate. Returns the
    created region and the reported (start, end) pairs. -/
def waveformReady (fixedDuration : Option ℚ) (duration : ℚ) :
    Region × List (ℚ × ℚ) :=
  let regionDuration : ℚ :=
    match fixedDuration with
    | some f => if f = 0 then min 60 duration else f
    | none => min 60 duration
  let defaultStart : ℚ := 0
  let defaultEnd : ℚ := min regionDuration duration
  let region : Region :=
    { start := defaultStart, finish := defaultEnd, drag := true,
      resize := if qOptTruthy fixedDuration then false else true }
  (region, [(defaultStart, defaultEnd)])

/-- Manual interactions on a region offered by the regions plugin. -/
inductive RegionOp where
  | dragBy (delta : ℚ)
  | resizeStartTo (t : ℚ)
  | resizeEndTo (t : ℚ)
deriving Repr, DecidableEq

/-- Modelled from the spec: the wavesurfer regions plugin is a
    third-party dependency whose code is not in this repository. Per the
    spec, a drag translates the whole interval and is only effective
    when dragging is enabled, while a resize moves a single edge and is
    ignored when resizing is disabled. -/
def Region.applyOp (r : Region) : RegionOp → Region
  | RegionOp.dragBy delta =>
    if r.drag then
      { r with start := r.start + delta, finish := r.finish + delta }
    else r
  | RegionOp.resizeStartTo t => if r.resize then { r with start := t } else r
  | RegionOp.resizeEndTo t => if r.resize then { r with finish := t } else r

/-- A sequence of manual interactions, applied in order. -/
def Region.applyOps (r : Region) (ops : List RegionOp) : Region :=
  ops.foldl Region.applyOp r

/-- Reported interval length of a region. -/
def Region.length (r : Region) : ℚ := r.finish - r.start

/-! Model of the audio recorder (components/AudioRecorder.tsx) -/

/-- A microphone media stream with its tracks. -/
structure MediaStream where
  tracks : List Nat
deriving Repr, DecidableEq

/-- The component and ref state of AudioRecorder. -/
structure RecorderState where
  isRecording : Bool
  recordedBlob : Option Blob
  isPlaying : Bool
  recordingTime : Nat
  mediaRecorder : Option MediaStream
  chunks : List Chunk
  timerActive : Bool
deriving Repr, DecidableEq

/-- The recorder before any interaction. -/
def recorderInit : RecorderState :=
  { isRecording := false, recordedBlob := none, isPlaying := false,
    recordingTime := 0, mediaRecorder := none, chunks := [],
    timerActive := false }

/-- Events driving the recorder. startClick carries the getUserMedia
    outcome (none is a denied permission, rejecting the await into the
    catch block). dataAvailable is an ondataavailable delivery; the
    final chunk delivered by MediaRecorder.stop() is a dataAvailable
    event preceding stopClick in the trace. stopClick collapses the
    stop-button handler with the single onstop event the platform
    recorder fires in response. tick is one interval timer firing. -/
inductive RecEvent where
  | startClick (perm : Option MediaStream)
  | dataAvailable (c : Chunk)
  | stopClick
  | tick
deriving Repr, DecidableEq

/-- Observable outcome of processing recorder events: final state plus
    the accumulated onRecordingComplete invocations, stopped stream
    tracks and toasts, each in order of occurrence. -/
structure RecorderOutput where
  state : RecorderState
  completed : List Blob
  stoppedTracks : List Nat
  errorToasts : List String
  successToasts : List String
deriving Repr, DecidableEq

/-- Outcome without any observable side effect. -/
def RecorderOutput.silent (st : RecorderState) : RecorderOutput :=
  { state := st, completed := [], stoppedTracks := [], errorToasts := [],
    successToasts := [] }

/-- One step of the recorder. -/
def recorderStep (st : RecorderState) (e : RecEvent) : RecorderOutput :=
  match e with
  | RecEvent.startClick none =>
    { state := st, completed := [], stoppedTracks := [],
      errorToasts := ["Failed to access microphone"], successToasts := [] }
  | RecEvent.startClick (some stream) =>
    let started : RecorderState :=
      { st with
        mediaRecorder := some stream, chunks := [],
        isRecording := true, recordingTime := 0, timerActive := true }
    { state := started, completed := [], stoppedTracks := [],
      errorToasts := [], successToasts := ["Recording started"] }
  | RecEvent.dataAvailable c =>
    if 0 < c.size then
      RecorderOutput.silent { st with chunks := st.chunks ++ [c] }
    else
      RecorderOutput.silent st
  | RecEvent.stopClick =>
    match st.mediaRecorder with
    | some stream =>
      if st.isRecording then
        let blob : Blob := { parts := st.chunks, type := "audio/webm" }
        let stopped : RecorderState :=
          { st with
            isRecording := false, timerActive := false,
            recordedBlob := some blob }
        { state := stopped,
          completed := [blob], stoppedTracks := stream.tracks,
          errorToasts := [], successToasts := ["Recording stopped"] }
      else RecorderOutput.silent st
    | none => RecorderOutput.silent st
  | RecEvent.tick =>
    if st.timerActive then
      RecorderOutput.silent { st with recordingTime := st.recordingTime + 1 }
    else RecorderOutput.silent st

/-- Processing of an event list, accumulating the observable outcome. -/
def recorderRun : RecorderState → List RecEvent → RecorderOutput
  | st, [] => RecorderOutput.silent st
  | st, e :: es =>
    let o := recorderStep st e
    let rest := recorderRun o.state es
    { state := rest.state, completed := o.completed ++ rest.completed,
      stoppedTracks := o.stoppedTracks ++ rest.stoppedTracks,
      errorToasts := o.errorToasts ++ rest.errorToasts,
      successToasts := o.successToasts ++ rest.successToasts }

/-! Model of the file-intake component (components/FileUpload.tsx) -/

/-- Prefix test with the semantics of String.prototype.startsWith,
    computed on the character lists so that concrete instances reduce
    in the kernel. -/
def jsStartsWith (s pre : String) : Bool :=
  List.isPrefixOf pre.toList s.toList

/-- Observable outcome of offering files to the intake component:
    the file handed to onFileSelect, if any, and the alert messages
    shown. -/
structure FileIntakeResult where
  accepted : Option JsFile
  alerts : List String
deriving Repr, DecidableEq

/-- Default size ceiling of the component: 50 MB. -/
def defaultMaxSize : Nat := 50 * 1024 * 1024

/-- Embedding of handleDrop: reads the first dropped file, requires its
    declared type to start with the audio/ prefix (the accept prop is
    not consulted here), then applies the size ceiling. A file of a
    non-audio declared type is dropped silently, with no message. -/
def handleDrop (maxSize : Nat) (files : List JsFile) : FileIntakeResult :=
  match files.head? with
  | some file =>
    if jsStartsWith file.type "audio/" then
      if file.size ≤ maxSize then { accepted := some file, alerts := [] }
      else { accepted := none,
             alerts := ["File is too large. Maximum size is 50MB."] }
    else { accepted := none, alerts := [] }
  | none => { accepted := none, alerts := [] }

/-- Embedding of handleFileInput: reads the first picked file and
    applies only the size ceiling; the declared type is not checked at
    all (the accept attribute on the input element is a picker hint the
    handler never consults). -/
def handleFileInput (maxSize : Nat) (files : List JsFile) :
    FileIntakeResult :=
  match files.head? with
  | some file =>
    if file.size ≤ maxSize then { accepted := some file, alerts := [] }
    else { accepted := none,
           alerts := ["File is too large. Maximum size is 50MB."] }
  | none => { accepted := none, alerts := [] }

/-- A small file of a declared non-audio type. -/
def textFile : JsFile := { name := "notes.txt", type := "text/plain", size := 1 }

/-! Theorems -/

/-- String append is associative (on the underlying character lists). -/
theorem str_append_assoc (a b c : String) : a ++ b ++ c = a ++ (b ++ c) := by
  apply String.ext
  simp [String.data_append, List.append_assoc]

/-- The blocking message always contains the formatted actual duration
    followed by the unit letter. -/
theorem durationBlockMsg_contains (t a : ℚ) :
    strContains (durationBlockMsg t a) (toFixed1 a ++ "s") := by
  refine ⟨"Please ensure the segment is exactly " ++ qToString t ++
    " seconds (current: ", ")", ?_⟩
  rw [durationBlockMsg, str_append_assoc _ (toFixed1 a) "s"]

/-- C1: on the home page, with a file selected and a nonzero target
    duration chosen, pressing Upload and Continue calls the
    upload-and-process endpoint iff the difference between the selected
    span (end minus start) and the target is at most 0.1 s; otherwise no
    network call is made and the single blocking message contains the
    actual duration formatted to one decimal place. -/
theorem handleUpload_duration_gate
    (st : IndexState) (backend : Except String UploadResult)
    (file : JsFile) (target : ℚ)
    (hf : st.selectedFile = some file)
    (hd : st.selectedDuration = some target) (hd0 : target ≠ 0)
    (hse : st.startTime ≤ st.endTime) :
    ((handleUpload st backend).calls =
        [NetCall.uploadAndProcess file st.startTime st.endTime] ↔
      |st.endTime - st.startTime - target| ≤ 1/10) ∧
    (¬ |st.endTime - st.startTime - target| ≤ 1/10 →
      (handleUpload st backend).calls = [] ∧
      (handleUpload st backend).errorToasts =
        [durationBlockMsg target (st.endTime - st.startTime)] ∧
      strContains (durationBlockMsg target (st.endTime - st.startTime))
        (toFixed1 (st.endTime - st.startTime) ++ "s")) := by
  have habs : |st.endTime - st.startTime| = st.endTime - st.startTime :=
    abs_of_nonneg (sub_nonneg.mpr hse)
  simp only [handleUpload, hf, hd, habs, if_neg hd0]
  by_cases hvalid : |st.endTime - st.startTime - target| ≤ 1/10
  · rw [if_pos hvalid]
    cases backend <;>
      exact ⟨⟨fun _ => hvalid, fun _ => rfl⟩, fun hc => absurd hvalid hc⟩
  · rw [if_neg hvalid]
    exact ⟨⟨fun h => absurd h.symm (List.cons_ne_nil _ _),
        fun h => absurd h hvalid⟩,
      fun _ => ⟨rfl, rfl, durationBlockMsg_contains _ _⟩⟩

/-- Witness for C1: scenario B (target 30, region 10..38) is blocked
    with a message citing 28.0s; scenario A (region 10..40) issues the
    upload-and-process call. -/
theorem handleUpload_duration_gate_witness :
    (handleUpload indexStateB (Except.ok ⟨1⟩)).calls = [] ∧
    (handleUpload indexStateB (Except.ok ⟨1⟩)).errorToasts =
      [durationBlockMsg 30 ((38 : ℚ) - 10)] ∧
    strContains (durationBlockMsg 30 ((38 : ℚ) - 10))
      (toFixed1 ((38 : ℚ) - 10) ++ "s") ∧
    durationBlockMsg 30 28 =
      "Please ensure the segment is exactly 30 seconds (current: 28.0s)" ∧
    (handleUpload indexStateA (Except.ok ⟨1⟩)).calls =
      [NetCall.uploadAndProcess sampleSong 10 40] := by
  have hB := handleUpload_duration_gate indexStateB (Except.ok ⟨1⟩)
    sampleSong 30 rfl rfl (by norm_num) (by norm_num [indexStateB])
  have hA := handleUpload_duration_gate indexStateA (Except.ok ⟨1⟩)
    sampleSong 30 rfl rfl (by norm_num) (by norm_num [indexStateA])
  have hBblocked := hB.2 (by norm_num [indexStateB])
  refine ⟨hBblocked.1, ?_, ?_, ?_, hA.1.mpr (by norm_num [indexStateA])⟩
  · exact hBblocked.2.1
  · exact hBblocked.2.2
  · have h28 : ((38 : ℚ) - 10) = 28 := by norm_num
    decide

/-- C2: for every non-ok response handled by apiRequest, a body whose
    detail is a non-empty list of field-error objects throws the last
    loc element joined with msg; a string detail is thrown verbatim; an
    error field is thrown verbatim; a message field is thrown verbatim;
    an absent or unparseable body falls back to a message derived from
    the HTTP status code and status text. -/
theorem apiRequest_error_normalization :
    (∀ (locInit : List Json) (f m : String) (rest : List Json)
        (status : Nat) (text : String),
      f ≠ "" → m ≠ "" →
      normalizeApiError
        (some (Json.obj [("detail", Json.arr
          (Json.obj [("loc", Json.arr (locInit ++ [Json.str f])),
                     ("msg", Json.str m)] :: rest))]))
        status text = some (f ++ ": " ++ m)) ∧
    (∀ (s : String) (status : Nat) (text : String),
      normalizeApiError (some (Json.obj [("detail", Json.str s)])) status text
        = some s) ∧
    (∀ (x : String) (status : Nat) (text : String), x ≠ "" →
      normalizeApiError (some (Json.obj [("error", Json.str x)])) status text
        = some x) ∧
    (∀ (msgVal : String) (status : Nat) (text : String), msgVal ≠ "" →
      normalizeApiError (some (Json.obj [("message", Json.str msgVal)]))
        status text = some msgVal) ∧
    (∀ (status : Nat) (text : String),
      normalizeApiError none status text
        = some ("API request failed: " ++ toString status ++ " " ++ text)) := by
  refine ⟨?_, ?_, ?_, ?_, ?_⟩
  · intro locInit f m rest status text hf hm
    simp [normalizeApiError, Json.getField, Json.truthy, Json.coerce,
      List.lookup, List.getLast?_concat, hf, hm]
  · intro s status text
    simp [normalizeApiError, Json.getField, Json.truthy, List.lookup]
  · intro x status text hx
    simp [normalizeApiError, Json.getField, Json.truthy, Json.coerce,
      List.lookup, hx]
  · intro msgVal status text hmsg
    simp [normalizeApiError, Json.getField, Json.truthy, Json.coerce,
      List.lookup, hmsg]
  · intro status text
    simp [normalizeApiError]

/-- Witness for C2: the spec examples, evaluated concretely. -/
theorem apiRequest_error_normalization_witness :
    normalizeApiError
      (some (Json.obj [("detail", Json.arr
        [Json.obj [("loc", Json.arr [Json.str "body", Json.str "email"]),
                   ("msg", Json.str "invalid")]])]))
      422 "Unprocessable Entity" = some "email: invalid" ∧
    normalizeApiError (some (Json.obj [("detail", Json.str "boom")]))
      400 "Bad Request" = some "boom" ∧
    normalizeApiError (some (Json.obj [("error", Json.str "x")]))
      500 "Internal Server Error" = some "x" ∧
    normalizeApiError (some (Json.obj [("message", Json.str "oops")]))
      500 "Internal Server Error" = some "oops" ∧
    normalizeApiError none 502 "Bad Gateway"
      = some "API request failed: 502 Bad Gateway" := by
  have h := apiRequest_error_normalization
  refine ⟨?_, h.2.1 "boom" 400 "Bad Request", h.2.2.1 "x" 500
    "Internal Server Error" (by decide), h.2.2.2.1 "oops" 500
    "Internal Server Error" (by decide), ?_⟩
  · have h1 := h.1 [Json.str "body"] "email" "invalid" [] 422
      "Unprocessable Entity" (by decide) (by decide)
    simpa using h1
  · have h5 := h.2.2.2.2 502 "Bad Gateway"
    simpa using h5

/-- C10: every request through apiRequest carries an Authorization
    header whenever the caller options do not themselves set one (no
    call site in this repository does); with no token entry in local
    storage the header value is the literal Bearer null. -/
theorem apiRequest_always_sends_auth_header
    (storedToken : Option String) (optionHeaders : HeaderMap)
    (h : optionHeaders "Authorization" = none) :
    apiRequestHeaders storedToken optionHeaders "Authorization"
      = some (authHeaderValue storedToken) ∧
    authHeaderValue none = "Bearer null" := by
  constructor
  · simp [apiRequestHeaders, jsSpread, h]
  · rfl

/-- Witness for C10: with no stored token and empty caller headers (the
    GET call sites), the header sent is exactly Bearer null; the JSON
    call sites only add Content-Type, which leaves it intact. -/
theorem apiRequest_always_sends_auth_header_witness :
    apiRequestHeaders none (fun _ => none) "Authorization"
      = some "Bearer null" ∧
    apiRequestHeaders none
      (fun k => if k = "Content-Type" then some "application/json" else none)
      "Authorization" = some "Bearer null" := by
  constructor
  · exact (apiRequest_always_sends_auth_header none (fun _ => none) rfl).1
  · exact (apiRequest_always_sends_auth_header none
      (fun k => if k = "Content-Type" then some "application/json" else none)
      (by simp)).1

/-- Removing a key makes its lookup none. -/
theorem Storage.get_removeItem_self (s : Storage) (k : String) :
    Storage.get (Storage.removeItem s k) k = none := by
  induction s with
  | nil => rfl
  | cons p rest ih =>
    obtain ⟨a, b⟩ := p
    by_cases h : a = k
    · have hb : (a != k) = false := by simp [h]
      simpa [Storage.removeItem, Storage.get, List.filter, hb] using ih
    · have hb : (a != k) = true := by simp [h]
      have hk : (k == a) = false := by simp [Ne.symm h]
      simpa [Storage.removeItem, Storage.get, List.filter, List.lookup, hb,
        hk] using ih

/-- Removing one key leaves lookups of a different key unchanged. -/
theorem Storage.get_removeItem_ne (s : Storage) (k k2 : String)
    (h : k ≠ k2) :
    Storage.get (Storage.removeItem s k2) k = Storage.get s k := by
  induction s with
  | nil => rfl
  | cons p rest ih =>
    obtain ⟨a, b⟩ := p
    by_cases hp : a = k2
    · have hb : (a != k2) = false := by simp [hp]
      have hk : (k == a) = false := by simp [hp, h]
      simpa [Storage.removeItem, Storage.get, List.filter, List.lookup, hb,
        hk] using ih
    · have hb : (a != k2) = true := by simp [hp]
      by_cases hk : k = a
      · have hk2 : (k == a) = true := by simp [hk]
        simp [Storage.removeItem, Storage.get, List.filter, List.lookup, hb,
          hk2]
      · have hk2 : (k == a) = false := by simp [hk]
        simpa [Storage.removeItem, Storage.get, List.filter, List.lookup, hb,
          hk2] using ih

/-- C3: at startup, when local storage holds a nonempty token and user
    entry: if the user entry parses, the session is restored with no
    network call and storage untouched; if parsing throws, both keys end
    up removed from storage and the session is unauthenticated, again
    with no network call (and no escaping exception: the embedded
    effect is a total function). -/
theorem session_rehydration
    (parse : String → Option User) (store : Storage) (t u : String)
    (ht : Storage.get store "token" = some t)
    (hu : Storage.get store "user" = some u)
    (ht0 : t ≠ "") (hu0 : u ≠ "") :
    (∀ pu, parse u = some pu →
      rehydrateSession parse store =
        ({ user := some pu, token := some t, isLoading := false }, store,
          [])) ∧
    (parse u = none →
      (rehydrateSession parse store).1 =
        { user := none, token := none, isLoading := false } ∧
      (rehydrateSession parse store).2.2 = [] ∧
      Storage.get (rehydrateSession parse store).2.1 "token" = none ∧
      Storage.get (rehydrateSession parse store).2.1 "user" = none) := by
  constructor
  · intro pu hp
    simp [rehydrateSession, ht, hu, ht0, hu0, hp]
  · intro hp
    have hmain : rehydrateSession parse store =
        ({ user := none, token := none, isLoading := false },
         Storage.removeItem (Storage.removeItem store "user") "token",
         []) := by
      simp [rehydrateSession, ht, hu, ht0, hu0, hp]
    refine ⟨by rw [hmain], by rw [hmain], ?_, ?_⟩
    · rw [hmain]
      exact Storage.get_removeItem_self _ _
    · rw [hmain]
      show Storage.get
        (Storage.removeItem (Storage.removeItem store "user") "token")
        "user" = none
      rw [Storage.get_removeItem_ne _ "user" "token" (by decide)]
      exact Storage.get_removeItem_self _ _

/-- Witness for C3: a parse that succeeds on the stored entry restores
    the session untouched with no calls; a parse that always throws
    clears both keys and leaves the session unauthenticated. -/
theorem session_rehydration_witness :
    rehydrateSession
        (fun s => if s = "userjson" then some sampleUser else none)
        sessionStore =
      ({ user := some sampleUser, token := some "tok123",
         isLoading := false }, sessionStore, []) ∧
    ((rehydrateSession (fun _ => none) sessionStore).1 =
        { user := none, token := none, isLoading := false } ∧
      (rehydrateSession (fun _ => none) sessionStore).2.2 = [] ∧
      Storage.get (rehydrateSession (fun _ => none) sessionStore).2.1
        "token" = none ∧
      Storage.get (rehydrateSession (fun _ => none) sessionStore).2.1
        "user" = none) := by
  constructor
  · exact (session_rehydration
      (fun s => if s = "userjson" then some sampleUser else none)
      sessionStore "tok123" "userjson" rfl rfl (by decide) (by decide)).1
      sampleUser (by decide)
  · exact (session_rehydration (fun _ => none) sessionStore "tok123"
      "userjson" rfl rfl (by decide) (by decide)).2 rfl

/-- C4: every invocation of the record page submission handler with an
    unauthenticated session (user null) only opens the login dialog and
    returns: no recording-upload or analyze call is issued, no toast is
    shown, storage is untouched, no navigation happens, and every state
    field other than the dialog flag is unchanged. -/
theorem record_submit_unauthenticated (seg : SegmentContext)
    (st : RecordState) (uploadResp analyzeResp : Except String Int) :
    handleSubmitAnalysis none seg st uploadResp analyzeResp =
      { state := { st with showLoginDialog := true }, calls := [],
        errorToasts := [], successToasts := [], storageRemoved := [],
        navTarget := none } := by
  rfl

/-- C9 counterexample: switching from record to upload mode does not
    reset the mode-specific state: the recorded blob is preserved
    verbatim instead of being cleared. -/
theorem mode_switch_reset_counterexample :
    (modeToggleClick recordPage0 RecordMode.upload).state.recordedBlob
      = some sampleBlob := by
  rfl

/-- C9 amended: switching between record and upload mode changes only
    the mode flag: the recorded blob, the uploaded file and its region
    selection are preserved rather than reset, and the segment identity
    (segmentId, fileName, startTime, endTime) and the storage mirror are
    untouched. -/
theorem mode_switch_preserves_all (p : RecordPage) (m : RecordMode) :
    (modeToggleClick p m).state.mode = m ∧
    (modeToggleClick p m).state.recordedBlob = p.state.recordedBlob ∧
    (modeToggleClick p m).state.uploadedFile = p.state.uploadedFile ∧
    (modeToggleClick p m).state.segmentStart = p.state.segmentStart ∧
    (modeToggleClick p m).state.segmentEnd = p.state.segmentEnd ∧
    (modeToggleClick p m).state.selectedDuration
      = p.state.selectedDuration ∧
    (modeToggleClick p m).seg = p.seg ∧
    (modeToggleClick p m).storage = p.storage :=
  ⟨rfl, rfl, rfl, rfl, rfl, rfl, rfl, rfl⟩

/-- Every single interaction preserves the resize flag. -/
theorem Region.applyOp_resize (r : Region) (op : RegionOp) :
    (Region.applyOp r op).resize = r.resize := by
  cases op <;> simp [Region.applyOp] <;> split <;> rfl

/-- Every single interaction preserves the length of a region whose
    resize handles are disabled. -/
theorem Region.applyOp_length (r : Region) (op : RegionOp)
    (h : r.resize = false) :
    Region.length (Region.applyOp r op) = Region.length r := by
  cases op with
  | dragBy delta =>
    by_cases hd : r.drag <;> simp [Region.applyOp, Region.length, hd]
  | resizeStartTo t => simp [Region.applyOp, Region.length, h]
  | resizeEndTo t => simp [Region.applyOp, Region.length, h]

/-- Length preservation extends to arbitrary interaction sequences. -/
theorem Region.applyOps_length (r : Region) (ops : List RegionOp)
    (h : r.resize = false) :
    Region.length (Region.applyOps r ops) = Region.length r := by
  induction ops generalizing r with
  | nil => rfl
  | cons op ops ih =>
    rw [Region.applyOps, List.foldl_cons]
    have hres : (Region.applyOp r op).resize = false := by
      rw [Region.applyOp_resize, h]
    calc Region.length (List.foldl Region.applyOp (Region.applyOp r op) ops)
        = Region.length (Region.applyOp r op) := ih _ hres
      _ = Region.length r := Region.applyOp_length r op h

/-- C6: when a nonzero fixed duration is requested, the seeded region
    has resizing disabled and dragging enabled, and the reported
    interval length stays equal to the initially seeded length across
    every sequence of manual interactions. -/
theorem waveform_fixed_duration_invariant (f duration : ℚ) (hf : f ≠ 0)
    (ops : List RegionOp) :
    (waveformReady (some f) duration).1.resize = false ∧
    (waveformReady (some f) duration).1.drag = true ∧
    Region.length
        (Region.applyOps (waveformReady (some f) duration).1 ops)
      = Region.length (waveformReady (some f) duration).1 := by
  have hres : (waveformReady (some f) duration).1.resize = false := by
    simp [waveformReady, qOptTruthy, hf]
  exact ⟨hres, rfl, Region.applyOps_length _ ops hres⟩

/-- Witness for C6: a 30 s fixed region on a 100 s track keeps length
    30 after a drag and an attempted resize. -/
theorem waveform_fixed_duration_invariant_witness :
    Region.length
      (Region.applyOps (waveformReady (some 30) 100).1
        [RegionOp.dragBy 5, RegionOp.resizeEndTo 99]) = 30 ∧
    (waveformReady (some 30) 100).1.resize = false := by
  have h := waveform_fixed_duration_invariant 30 100 (by norm_num)
    [RegionOp.dragBy 5, RegionOp.resizeEndTo 99]
  refine ⟨?_, h.1⟩
  rw [h.2.2]
  show min (30 : ℚ) 100 - 0 = 30
  norm_num

/-- C7 counterexample: with a requested fixed duration of 60 s on a
    30 s track, the seeded interval ends at 30, not at the requested
    fixed duration, and the pair reported upward is (0, 30). -/
theorem waveform_seed_counterexample :
    (waveformReady (some 60) 30).1.finish ≠ 60 ∧
    (waveformReady (some 60) 30).2 = [(0, 30)] := by
  constructor
  · simp [waveformReady, qOptTruthy]
    norm_num
  · simp [waveformReady, qOptTruthy]
    norm_num

/-- C7 amended: on ready with region selection enabled, the seeded
    interval starts at 0 and ends at min(fixed duration, total
    duration) when a nonzero fixed duration is given, and otherwise at
    min(60 s, total duration); the interval is immediately reported
    upward through onRegionUpdate. -/
theorem waveform_seed_default_interval (fixedDuration : Option ℚ)
    (duration : ℚ) :
    (∀ f, fixedDuration = some f → f ≠ 0 →
      waveformReady fixedDuration duration =
        ({ start := 0, finish := min f duration, drag := true,
           resize := false }, [(0, min f duration)])) ∧
    (qOptTruthy fixedDuration = false →
      waveformReady fixedDuration duration =
        ({ start := 0, finish := min 60 duration, drag := true,
           resize := true }, [(0, min 60 duration)])) := by
  constructor
  · intro f hfd hf
    subst hfd
    simp [waveformReady, qOptTruthy, hf]
  · intro hfalsy
    have hmin : min (min (60 : ℚ) duration) duration = min 60 duration :=
      min_eq_left (min_le_right 60 duration)
    match fixedDuration with
    | none => simp [waveformReady, qOptTruthy, hmin]
    | some f =>
      have hf0 : f = 0 := by
        by_contra hne
        simp [qOptTruthy, hne] at hfalsy
      subst hf0
      simp [waveformReady, qOptTruthy, hmin]

/-- Witness for C7: a 30 s fixed region on a 100 s track seeds (0, 30)
    and reports it; with no fixed duration a 100 s track seeds (0, 60). -/
theorem waveform_seed_default_interval_witness :
    waveformReady (some 30) 100 =
      ({ start := 0, finish := 30, drag := true, resize := false },
        [(0, 30)]) ∧
    waveformReady none 100 =
      ({ start := 0, finish := 60, drag := true, resize := true },
        [(0, 60)]) := by
  constructor
  · have h := (waveform_seed_default_interval (some 30) 100).1 30 rfl
      (by norm_num)
    rw [h]
    norm_num
  · have h := (waveform_seed_default_interval none 100).2 rfl
    rw [h]
    norm_num

/-- Running a concatenated trace composes state and concatenates the
    accumulated observations. -/
theorem recorderRun_append (st : RecorderState) (es fs : List RecEvent) :
    recorderRun st (es ++ fs) =
      { state := (recorderRun (recorderRun st es).state fs).state,
        completed := (recorderRun st es).completed ++
          (recorderRun (recorderRun st es).state fs).completed,
        stoppedTracks := (recorderRun st es).stoppedTracks ++
          (recorderRun (recorderRun st es).state fs).stoppedTracks,
        errorToasts := (recorderRun st es).errorToasts ++
          (recorderRun (recorderRun st es).state fs).errorToasts,
        successToasts := (recorderRun st es).successToasts ++
          (recorderRun (recorderRun st es).state fs).successToasts } := by
  induction es generalizing st with
  | nil => simp [recorderRun, RecorderOutput.silent]
  | cons e es ih =>
    simp [recorderRun, ih, List.append_assoc]

/-- A run of pure data deliveries only appends the nonempty chunks. -/
theorem recorderRun_data (st : RecorderState) (cs : List Chunk) :
    recorderRun st (cs.map RecEvent.dataAvailable) =
      RecorderOutput.silent
        { st with
          chunks := st.chunks ++
            cs.filter (fun c => decide (0 < c.size)) } := by
  induction cs generalizing st with
  | nil => simp [recorderRun, RecorderOutput.silent]
  | cons c cs ih =>
    by_cases h : 0 < c.size
    · simp [recorderRun, recorderStep, h, ih, RecorderOutput.silent,
        List.filter_cons]
    · simp [recorderRun, recorderStep, h, ih, RecorderOutput.silent,
        List.filter_cons]

/-- C8: pressing start with microphone access denied surfaces a failure
    toast and changes nothing else (the recorder stays Idle: no state
    change, no blob, no callback); a granted start followed by data
    deliveries and a stop hands the blob assembled from the nonempty
    chunks to onRecordingComplete exactly once and stops every track of
    the microphone stream, ending not recording with the blob stored. -/
theorem audio_recorder_start_stop :
    (∀ st : RecorderState,
      recorderStep st (RecEvent.startClick none) =
        { state := st, completed := [], stoppedTracks := [],
          errorToasts := ["Failed to access microphone"],
          successToasts := [] }) ∧
    (∀ (stream : MediaStream) (cs : List Chunk),
      (recorderRun recorderInit
          (RecEvent.startClick (some stream) ::
            (cs.map RecEvent.dataAvailable ++ [RecEvent.stopClick]))).completed
        = [{ parts := cs.filter (fun c => decide (0 < c.size)),
             type := "audio/webm" }] ∧
      (recorderRun recorderInit
          (RecEvent.startClick (some stream) ::
            (cs.map RecEvent.dataAvailable ++ [RecEvent.stopClick]))).stoppedTracks
        = stream.tracks ∧
      (recorderRun recorderInit
          (RecEvent.startClick (some stream) ::
            (cs.map RecEvent.dataAvailable ++ [RecEvent.stopClick]))).state.isRecording
        = false ∧
      (recorderRun recorderInit
          (RecEvent.startClick (some stream) ::
            (cs.map RecEvent.dataAvailable ++ [RecEvent.stopClick]))).state.recordedBlob
        = some { parts := cs.filter (fun c => decide (0 < c.size)),
                 type := "audio/webm" }) := by
  constructor
  · intro st
    rfl
  · intro stream cs
    rw [show RecEvent.startClick (some stream) ::
        (cs.map RecEvent.dataAvailable ++ [RecEvent.stopClick]) =
        [RecEvent.startClick (some stream)] ++
          (cs.map RecEvent.dataAvailable ++ [RecEvent.stopClick]) from rfl]
    rw [recorderRun_append, recorderRun_append, recorderRun_data]
    simp [recorderRun, recorderStep, RecorderOutput.silent, recorderInit]

/-- C5 counterexample: a small text/plain file offered through the file
    picker is accepted (onFileSelect is invoked) although its declared
    type matches no accepted audio set; and the same file offered by
    drag-and-drop is rejected without any user-visible message. -/
theorem fileIntake_counterexample :
    (handleFileInput defaultMaxSize [textFile]).accepted = some textFile ∧
    (handleDrop defaultMaxSize [textFile]).accepted = none ∧
    (handleDrop defaultMaxSize [textFile]).alerts = [] := by
  refine ⟨?_, ?_, ?_⟩ <;> decide

/-- C5 amended: on the drop path, onFileSelect is invoked iff the
    declared type starts with audio/ and the size is within the
    ceiling; an oversized audio file triggers the size alert, while a
    wrong-type drop is ignored silently. On the picker path,
    onFileSelect is invoked iff the size is within the ceiling,
    regardless of the declared type; oversized files trigger the size
    alert. No rejected file ever reaches onFileSelect. -/
theorem fileIntake_gate (maxSize : Nat) (file : JsFile)
    (files : List JsFile) (hhead : files.head? = some file) :
    ((handleDrop maxSize files).accepted = some file ↔
      jsStartsWith file.type "audio/" = true ∧
        file.size ≤ maxSize) ∧
    (jsStartsWith file.type "audio/" = true → maxSize < file.size →
      (handleDrop maxSize files).accepted = none ∧
      (handleDrop maxSize files).alerts =
        ["File is too large. Maximum size is 50MB."]) ∧
    (jsStartsWith file.type "audio/" = false →
      handleDrop maxSize files = { accepted := none, alerts := [] }) ∧
    ((handleFileInput maxSize files).accepted = some file ↔
      file.size ≤ maxSize) ∧
    (maxSize < file.size →
      (handleFileInput maxSize files).accepted = none ∧
      (handleFileInput maxSize files).alerts =
        ["File is too large. Maximum size is 50MB."]) := by
  refine ⟨?_, ?_, ?_, ?_, ?_⟩
  · constructor
    · intro hacc
      by_cases htype : jsStartsWith file.type "audio/"
      · by_cases hsize : file.size ≤ maxSize
        · exact ⟨htype, hsize⟩
        · simp [handleDrop, hhead, htype, hsize] at hacc
      · simp [handleDrop, hhead, htype] at hacc
    · intro ⟨htype, hsize⟩
      simp [handleDrop, hhead, htype, hsize]
  · intro htype hsize
    have hle : ¬ file.size ≤ maxSize := not_le.mpr hsize
    constructor <;> simp [handleDrop, hhead, htype, hle]
  · intro htype
    simp [handleDrop, hhead, htype]
  · constructor
    · intro hacc
      by_cases hsize : file.size ≤ maxSize
      · exact hsize
      · simp [handleFileInput, hhead, hsize] at hacc
    · intro hsize
      simp [handleFileInput, hhead, hsize]
  · intro hsize
    have hle : ¬ file.size ≤ maxSize := not_le.mpr hsize
    constructor <;> simp [handleFileInput, hhead, hle]

/-- Witness for C5 (amended): a small audio file is accepted on both
    paths; an oversized audio file is rejected with the size alert on
    both paths. -/
theorem fileIntake_gate_witness :
    (handleDrop defaultMaxSize [sampleSong]).accepted = some sampleSong ∧
    (handleFileInput defaultMaxSize [sampleSong]).accepted
      = some sampleSong ∧
    (handleDrop defaultMaxSize
        [{ name := "big.mp3", type := "audio/mpeg",
           size := 50 * 1024 * 1024 + 1 }]).alerts
      = ["File is too large. Maximum size is 50MB."] ∧
    (handleFileInput defaultMaxSize
        [{ name := "big.mp3", type := "audio/mpeg",
           size := 50 * 1024 * 1024 + 1 }]).accepted = none := by
  have hsmall := fileIntake_gate defaultMaxSize sampleSong [sampleSong] rfl
  have hbig := fileIntake_gate defaultMaxSize
    { name := "big.mp3", type := "audio/mpeg",
      size := 50 * 1024 * 1024 + 1 }
    [{ name := "big.mp3", type := "audio/mpeg",
       size := 50 * 1024 * 1024 + 1 }] rfl
  refine ⟨?_, ?_, ?_, ?_⟩
  · exact hsmall.1.mpr ⟨by decide, by decide⟩
  · exact hsmall.2.2.2.1.mpr (by decide)
  · exact (hbig.2.1 (by decide) (by decide)).2
  · exact (hbig.2.2.2.2 (by decide)).1
